import Mathlib

/-!
Verification development for the multi-engine output comparator
(`pytorch_pfn_extras/utils/comparer.py`).

The Python module is shallowly embedded below:
* tensors are modelled as values carrying `onCpu`/`detached` flags,
* Python dicts are modelled as insertion-ordered association lists,
* the pluggable comparison function is modelled as a function producing a
  call descriptor (the arguments that would be handed to
  `torch.testing.assert_allclose`),
* exceptions are modelled with `Except String`,
* the barrier/semaphore interactions of a single callback are modelled as an
  emitted list of synchronization events.
-/

set_option autoImplicit false

namespace Comparer

/-- A tensor value: abstract payload plus the device/grad bookkeeping that
`val.cpu().detach()` manipulates. -/
structure Tensor where
  data : Int
  onCpu : Bool
  detached : Bool
deriving DecidableEq, Repr

/-- Embeds `torch.Tensor.cpu`. -/
def Tensor.cpu (t : Tensor) : Tensor := { t with onCpu := true }

/-- Embeds `torch.Tensor.detach`. -/
def Tensor.detach (t : Tensor) : Tensor := { t with detached := true }

/-- A Python dict with `String` keys, as an insertion-ordered association
list. -/
def TDict (α : Type) : Type := List (String × α)

/-- Dict lookup, `d[k]`: first binding of `k` wins. -/
def dlookup {α : Type} (d : List (String × α)) (k : String) : Option α :=
  match d with
  | [] => none
  | (k', v) :: rest => if k' = k then some v else dlookup rest k

/-- Dict assignment `d[k] = v`: overwrites in place when the key exists,
appends otherwise (Python dict insertion-order semantics). -/
def dictInsert {α : Type} (d : List (String × α)) (k : String) (v : α) :
    List (String × α) :=
  match d with
  | [] => [(k, v)]
  | (k', v') :: rest =>
    if k' = k then (k, v) :: rest else (k', v') :: dictInsert rest k v

/-- The argument record of one `torch.testing.assert_allclose` call issued by
the default comparison function. -/
structure AllcloseCall where
  val1 : Tensor
  val2 : Tensor
  rtol : ℚ
  atol : ℚ
  equalNan : Bool
  msg : String
deriving DecidableEq, Repr

/-- The f-string `f" comparing {backend1} and {backend2} in {name}"` used when
no custom message is supplied. -/
def defaultCmpMsg (backend1 backend2 name : String) : String :=
  " comparing " ++ backend1 ++ " and " ++ backend2 ++ " in " ++ name

/-- Embeds `get_default_comparer(rtol, atol, equal_nan, msg)`: the returned
closure `compare_fn(backend1, backend2, name, val1, val2)` computes
`err_msg = msg or f"..."` and calls `assert_allclose` on the cpu-detached
values with the captured options.  `msg = none` is Python `None`; an empty
string is also falsy under Python `or`. -/
def getDefaultComparer (rtol atol : ℚ) (equalNan : Bool) (msg : Option String)
    (backend1 backend2 name : String) (val1 val2 : Tensor) : AllcloseCall :=
  let errMsg : String :=
    match msg with
    | none => defaultCmpMsg backend1 backend2 name
    | some m => if m = "" then defaultCmpMsg backend1 backend2 name else m
  { val1 := val1.cpu.detach
    val2 := val2.cpu.detach
    rtol := rtol
    atol := atol
    equalNan := equalNan
    msg := errMsg }

/-- Embeds `_default_comparer = get_default_comparer()` with the default
arguments `rtol=1e-07, atol=0, equal_nan=True, msg=None`. -/
def defaultComparer : String → String → String → Tensor → Tensor → AllcloseCall :=
  getDefaultComparer (1 / 10 ^ 7) 0 true none

/-!  The handler interceptor `_ComparableHandler`. -/

/-- The (abstract) argument and result types of the wrapped handler's
lifecycle methods. -/
structure HandlerSig : Type 1 where
  Tr : Type
  Ev : Type
  Loader : Type
  BatchIdx : Type
  Batch : Type
  Out : Type
  Models : Type
  CompleteFn : Type
  Rconvert : Type
  Rsetup : Type
  RepochBegin : Type
  RepochEnd : Type
  RvalBegin : Type
  RvalEnd : Type
  RtrainStep : Type
  RtrainPost : Type
  RloopBegin : Type
  RevalStep : Type
  RloopEnd : Type
  RevalPost : Type

/-- The wrapped handler: one opaque function per lifecycle method
(`BaseHandler` interface as used by `_ComparableHandler`). -/
structure BaseHandler (σ : HandlerSig) where
  convert_batch : σ.Batch → σ.Rconvert
  train_setup : σ.Tr → σ.Loader → σ.Rsetup
  train_epoch_begin : σ.Tr → σ.Loader → σ.RepochBegin
  train_epoch_end : σ.Tr → σ.RepochEnd
  train_validation_begin : σ.Ev → σ.RvalBegin
  train_validation_end : σ.Tr → σ.Ev → σ.RvalEnd
  train_step : σ.Tr → σ.BatchIdx → σ.Batch → σ.CompleteFn → σ.RtrainStep
  train_post_step : σ.Tr → σ.BatchIdx → σ.Batch → σ.Out → σ.RtrainPost
  eval_loop_begin : σ.Ev → σ.RloopBegin
  eval_step : σ.Ev → σ.BatchIdx → σ.Batch → σ.CompleteFn → σ.RevalStep
  eval_loop_end : σ.Ev → σ.RloopEnd
  eval_post_step : σ.Ev → σ.BatchIdx → σ.Batch → σ.Out → σ.RevalPost

/-- The `_ComparableHandler` wrapper object: the wrapped handler plus the
engine name and the per-engine iteration counter.  (The stored
`_save_outs_cb` callback mentions the wrapper's own type, so it is passed to
the post-step methods as an explicit argument instead of being a field.) -/
structure ComparableHandler (σ : HandlerSig) where
  handler : BaseHandler σ
  name : String
  iteration : Nat

/-- `_ComparableHandler.convert_batch`. -/
def ComparableHandler.convert_batch {σ : HandlerSig} (ch : ComparableHandler σ)
    (args : σ.Batch) : σ.Rconvert :=
  ch.handler.convert_batch args

/-- `_ComparableHandler.train_setup`. -/
def ComparableHandler.train_setup {σ : HandlerSig} (ch : ComparableHandler σ)
    (trainer : σ.Tr) (loader : σ.Loader) : σ.Rsetup :=
  ch.handler.train_setup trainer loader

/-- `_ComparableHandler.train_epoch_begin`. -/
def ComparableHandler.train_epoch_begin {σ : HandlerSig} (ch : ComparableHandler σ)
    (trainer : σ.Tr) (loader : σ.Loader) : σ.RepochBegin :=
  ch.handler.train_epoch_begin trainer loader

/-- `_ComparableHandler.train_epoch_end`. -/
def ComparableHandler.train_epoch_end {σ : HandlerSig} (ch : ComparableHandler σ)
    (trainer : σ.Tr) : σ.RepochEnd :=
  ch.handler.train_epoch_end trainer

/-- `_ComparableHandler.train_validation_begin`. -/
def ComparableHandler.train_validation_begin {σ : HandlerSig} (ch : ComparableHandler σ)
    (evaluator : σ.Ev) : σ.RvalBegin :=
  ch.handler.train_validation_begin evaluator

/-- `_ComparableHandler.train_validation_end`. -/
def ComparableHandler.train_validation_end {σ : HandlerSig} (ch : ComparableHandler σ)
    (trainer : σ.Tr) (evaluator : σ.Ev) : σ.RvalEnd :=
  ch.handler.train_validation_end trainer evaluator

/-- `_ComparableHandler.train_step`. -/
def ComparableHandler.train_step {σ : HandlerSig} (ch : ComparableHandler σ)
    (trainer : σ.Tr) (batch_idx : σ.BatchIdx) (batch : σ.Batch)
    (complete_fn : σ.CompleteFn) : σ.RtrainStep :=
  ch.handler.train_step trainer batch_idx batch complete_fn

/-- `_ComparableHandler.eval_loop_begin`. -/
def ComparableHandler.eval_loop_begin {σ : HandlerSig} (ch : ComparableHandler σ)
    (evaluator : σ.Ev) : σ.RloopBegin :=
  ch.handler.eval_loop_begin evaluator

/-- `_ComparableHandler.eval_step`. -/
def ComparableHandler.eval_step {σ : HandlerSig} (ch : ComparableHandler σ)
    (evaluator : σ.Ev) (batch_idx : σ.BatchIdx) (batch : σ.Batch)
    (complete_fn : σ.CompleteFn) : σ.RevalStep :=
  ch.handler.eval_step evaluator batch_idx batch complete_fn

/-- `_ComparableHandler.eval_loop_end`. -/
def ComparableHandler.eval_loop_end {σ : HandlerSig} (ch : ComparableHandler σ)
    (evaluator : σ.Ev) : σ.RloopEnd :=
  ch.handler.eval_loop_end evaluator

/-- `_ComparableHandler.train_post_step`: delegates to the wrapped handler,
increments `self.iteration`, then returns `save_outs_cb(self, trainer.models,
batch_idx, outputs)`.  The result records the delegated call's value, the
updated wrapper, and the callback's value. -/
def ComparableHandler.train_post_step {σ : HandlerSig} {Rcb : Type}
    (cb : ComparableHandler σ → σ.Models → σ.BatchIdx → σ.Out → Rcb)
    (modelsOf : σ.Tr → σ.Models) (ch : ComparableHandler σ)
    (trainer : σ.Tr) (batch_idx : σ.BatchIdx) (batch : σ.Batch) (outputs : σ.Out) :
    σ.RtrainPost × ComparableHandler σ × Rcb :=
  let delegated := ch.handler.train_post_step trainer batch_idx batch outputs
  let ch1 : ComparableHandler σ := { ch with iteration := ch.iteration + 1 }
  (delegated, ch1, cb ch1 (modelsOf trainer) batch_idx outputs)

/-- `_ComparableHandler.eval_post_step`: delegates to the wrapped handler,
increments `self.iteration`, then returns `save_outs_cb(self,
evaluator.models, batch_idx, outputs)`. -/
def ComparableHandler.eval_post_step {σ : HandlerSig} {Rcb : Type}
    (cb : ComparableHandler σ → σ.Models → σ.BatchIdx → σ.Out → Rcb)
    (modelsOf : σ.Ev → σ.Models) (ch : ComparableHandler σ)
    (evaluator : σ.Ev) (batch_idx : σ.BatchIdx) (batch : σ.Batch) (outputs : σ.Out) :
    σ.RevalPost × ComparableHandler σ × Rcb :=
  let delegated := ch.handler.eval_post_step evaluator batch_idx batch outputs
  let ch1 : ComparableHandler σ := { ch with iteration := ch.iteration + 1 }
  (delegated, ch1, cb ch1 (modelsOf evaluator) batch_idx outputs)

/-!  Engine registration (`Comparer.__init__` / `Comparer.add_engine`). -/

/-- The Python runtime type of a candidate engine: `_trainer.Trainer`,
`_evaluator.Evaluator`, or anything else. -/
inductive PyType where
  | trainerType
  | evaluatorType
  | otherType
deriving DecidableEq, Repr

/-- The registration-relevant state of a `Comparer`: the `_engine_type`
field and the `_engines` ordered dict (name, engine runtime type). -/
structure RegComparer where
  engineType : Option PyType
  engines : List (String × PyType)
deriving DecidableEq, Repr

/-- The registration-relevant part of `Comparer.__init__`: with
`trigger=None` the `_engine_type` field stays `None`; with any other trigger
it is set to `_trainer.Trainer` before any engine is registered. -/
def comparerInit (trigger : Option Nat) : RegComparer :=
  match trigger with
  | none => { engineType := none, engines := [] }
  | some _ => { engineType := some PyType.trainerType, engines := [] }

/-- Embeds `Comparer.add_engine(name, engine, ...)`: reject unsupported
runtime types, then fix or check `_engine_type`, then reject duplicate
names, then register. -/
def addEngine (st : RegComparer) (name : String) (ty : PyType) :
    Except String RegComparer :=
  if ty = PyType.otherType then
    .error "Engine type is not supported"
  else
    match st.engineType with
    | some et =>
      if ty ≠ et then .error "All the engines must be of the same type"
      else if name ∈ st.engines.map Prod.fst then
        .error "Engine already registered"
      else .ok { st with engines := st.engines ++ [(name, ty)] }
    | none =>
      if name ∈ st.engines.map Prod.fst then
        .error "Engine already registered"
      else .ok { engineType := some ty, engines := st.engines ++ [(name, ty)] }

/-- The raise condition exactly as the claim words it: unsupported runtime
type, or a *registered* engine of a different kind, or a duplicate name. -/
def specRaisesOnAdd (st : RegComparer) (name : String) (ty : PyType) : Bool :=
  decide (ty = PyType.otherType)
    || st.engines.any (fun p => decide (p.2 ≠ ty))
    || decide (name ∈ st.engines.map Prod.fst)

/-- The raise condition the code implements: unsupported runtime type, or a
set `_engine_type` field of a different kind (set by the first successful
registration or already at construction when a trigger is passed), or a
duplicate name. -/
def codeRaisesOnAdd (st : RegComparer) (name : String) (ty : PyType) : Bool :=
  decide (ty = PyType.otherType)
    || (match st.engineType with
        | some et => decide (ty ≠ et)
        | none => false)
    || decide (name ∈ st.engines.map Prod.fst)

/-!  Capture-and-compare state machine
(`Comparer._preprocess_keys` / `_add_target` / `_compare_outs` /
`_compare_targets` / `_assert_incompatible_trigger` / `run_engine`). -/

/-- A key-selection option (`outputs=` / `params=` constructor arguments):
Python `True`, Python `False`, or an explicit tuple of keys/patterns. -/
inductive KeySel where
  | all
  | noKeys
  | keys (ks : List String)
deriving DecidableEq, Repr

/-- The capture-relevant state of a `Comparer`: registered engine names in
order, the `_targets` dict, the key-selection fields, and `_finalized`. -/
structure CmpState where
  engines : List String
  targets : List (String × TDict Tensor)
  outputKeys : KeySel
  paramKeys : KeySel
  preprocessedKeys : Option (List String)
  finalized : Bool

/-- Keys of the model state dict matched by one pattern, in state-dict
order (`re.match(tc_k, sd_k) is not None`).  `reMatch` abstracts
`re.match`. -/
def patMatches (reMatch : String → String → Bool) (pat : String)
    (sdKeys : List String) : List String :=
  sdKeys.filter (fun k => reMatch pat k)

/-- The pattern loop of `_preprocess_keys`: for each pattern collect every
matching state-dict key; a pattern with no match raises. -/
def patLoop (reMatch : String → String → Bool) (sdKeys : List String) :
    List String → Except String (List String)
  | [] => .ok []
  | p :: ps =>
    let ms := patMatches reMatch p sdKeys
    if ms.isEmpty then
      .error ("didnt find a match for " ++ p ++ " in the model")
    else
      match patLoop reMatch sdKeys ps with
      | .error e => .error e
      | .ok rest => .ok (ms ++ rest)

/-- Embeds `Comparer._preprocess_keys(model)` over the model's state dict. -/
def preprocessKeys (reMatch : String → String → Bool) (paramKeys : KeySel)
    (sdict : TDict Tensor) : Except String (List String) :=
  match paramKeys with
  | KeySel.noKeys => .ok []
  | KeySel.all => .ok (sdict.map Prod.fst)
  | KeySel.keys pats => patLoop reMatch (sdict.map Prod.fst) pats

/-- The dict comprehension `{key: src[key] for key in ks}` merged into an
accumulator dict (`dict.update` semantics); a missing key raises. -/
def extractInto (src : TDict Tensor) (acc : TDict Tensor) :
    List String → Except String (TDict Tensor)
  | [] => .ok acc
  | k :: ks =>
    match dlookup src k with
    | none => .error ("KeyError: " ++ k)
    | some v => extractInto src (dictInsert acc k v) ks

/-- The value `self._output_keys` takes at the top of `_add_target`. -/
def outKeysOf (sel : KeySel) (outputs : TDict Tensor) : List String :=
  match sel with
  | KeySel.all => outputs.map Prod.fst
  | KeySel.noKeys => []
  | KeySel.keys ks => ks

/-- The lazy `_preprocessed_keys` resolution step of `_add_target`: returns
the resolved parameter keys and the (possibly updated) state.  The
`models['main']` lookup happens before `_preprocess_keys` runs because
Python evaluates the call's argument first. -/
def resolveParamKeys (reMatch : String → String → Bool) (st : CmpState)
    (models : TDict (TDict Tensor)) : Except String (List String × CmpState) :=
  match st.preprocessedKeys with
  | some pk => .ok (pk, st)
  | none =>
    match dlookup models "main" with
    | none => .error "KeyError: main"
    | some sdict =>
      match preprocessKeys reMatch st.paramKeys sdict with
      | .error e => .error e
      | .ok pk => .ok (pk, { st with preprocessedKeys := some pk })

/-- The Target Set built by `_add_target`: the selected outputs, updated
with the selected parameters from `models['main'].state_dict()` when any
parameter key is configured. -/
def buildTarget (outKeys pk : List String) (models : TDict (TDict Tensor))
    (outputs : TDict Tensor) : Except String (TDict Tensor) :=
  match extractInto outputs [] outKeys with
  | .error e => .error e
  | .ok outPart =>
    if pk.length > 0 then
      match dlookup models "main" with
      | none => .error "KeyError: main"
      | some sdict => extractInto sdict outPart pk
    else .ok outPart

/-- Embeds `Comparer._add_target(handle, models, outputs)`: resolve the
output keys, lazily resolve the parameter keys against `models['main']`,
extract the selected outputs and parameters, and store the resulting Target
Set under the handler's name. -/
def addTarget (reMatch : String → String → Bool) (st : CmpState) (name : String)
    (models : TDict (TDict Tensor)) (outputs : TDict Tensor) :
    Except String CmpState :=
  let outKeys := outKeysOf st.outputKeys outputs
  let st1 : CmpState := { st with outputKeys := KeySel.keys outKeys }
  match resolveParamKeys reMatch st1 models with
  | .error e => .error e
  | .ok (pk, st2) =>
    match buildTarget outKeys pk models outputs with
    | .error e => .error e
    | .ok tg => .ok { st2 with targets := dictInsert st2.targets name tg }

/-- One invocation of the pluggable Comparison Function
`compare_fn(backend1, backend2, val_name, out1, out2)`. -/
structure CompareCall where
  backend1 : String
  backend2 : String
  key : String
  val1 : Tensor
  val2 : Tensor
deriving DecidableEq, Repr

/-- The inner loop of `_compare_outs`: for each key of the reference's
Target Set, look up both values and record the comparison call. -/
def innerCalls (targets : List (String × TDict Tensor)) (backend1 backend2 : String)
    (ts1 : TDict Tensor) : List (String × Tensor) → Except String (List CompareCall)
  | [] => .ok []
  | (k, _) :: rest =>
    match dlookup ts1 k with
    | none => .error ("KeyError: " ++ k)
    | some v1 =>
      match dlookup targets backend2 with
      | none => .error ("KeyError: " ++ backend2)
      | some ts2 =>
        match dlookup ts2 k with
        | none => .error ("KeyError: " ++ k)
        | some v2 =>
          match innerCalls targets backend1 backend2 ts1 rest with
          | .error e => .error e
          | .ok cs => .ok ({ backend1 := backend1, backend2 := backend2,
                             key := k, val1 := v1, val2 := v2 } :: cs)

/-- The outer loop of `_compare_outs`: iterate the non-reference engines in
registration order. -/
def outerCalls (targets : List (String × TDict Tensor)) (backend1 : String) :
    List String → Except String (List CompareCall)
  | [] => .ok []
  | backend2 :: more =>
    match dlookup targets backend1 with
    | none => .error ("KeyError: " ++ backend1)
    | some ts1 =>
      match innerCalls targets backend1 backend2 ts1 ts1 with
      | .error e => .error e
      | .ok cs =>
        match outerCalls targets backend1 more with
        | .error e => .error e
        | .ok csMore => .ok (cs ++ csMore)

/-- Embeds `Comparer._compare_outs`: the first-registered engine is the
reference; the result lists the Comparison Function invocations in calling
order. -/
def compareOuts (engines : List String) (targets : List (String × TDict Tensor)) :
    Except String (List CompareCall) :=
  match engines with
  | [] => .error "IndexError: list index out of range"
  | backend1 :: rest => outerCalls targets backend1 rest

/-- A synchronization action performed on the shared primitives. -/
inductive SyncEvent where
  | semAcquire
  | semRelease
  | barrierWait
  | barrierAbort
deriving DecidableEq, Repr

/-- The explicit synchronization handshake at the end of a triggered
`_compare_targets` call: `semaphore.release(); barrier.wait();
semaphore.acquire()`. -/
def syncHandshake : List SyncEvent :=
  [SyncEvent.semRelease, SyncEvent.barrierWait, SyncEvent.semAcquire]

/-- The body of `_compare_targets` past the trigger gate: the
`_report_lock` block (save the target; when every engine has reported,
compare and reset; assert not finalized) followed by the synchronization
handshake.  The middle component records the `_compare_outs` invocations
(`none` when no comparison round ran this call). -/
def compareTargetsBody (reMatch : String → String → Bool) (st : CmpState)
    (name : String) (models : TDict (TDict Tensor)) (outputs : TDict Tensor) :
    Except String (CmpState × Option (List CompareCall) × List SyncEvent) :=
  match addTarget reMatch st name models outputs with
  | .error e => .error e
  | .ok st1 =>
    if st1.targets.length = st1.engines.length then
      match compareOuts st1.engines st1.targets with
      | .error e => .error e
      | .ok cs =>
        if st1.finalized then .error "Engines have different triggers."
        else .ok ({ st1 with targets := [] }, some cs, syncHandshake)
    else
      if st1.finalized then .error "Engines have different triggers."
      else .ok (st1, none, syncHandshake)

/-- A progress manager: the `iteration` attribute the `_ManagerProxy`
overrides, plus its remaining (opaque) attributes. -/
structure Manager (ρ : Type) where
  iteration : Nat
  rest : ρ

/-- The `_ManagerProxy` subclass local to `_compare_targets`: delegates every
attribute but reports `iteration` one ahead of the wrapped manager. -/
def managerProxy {ρ : Type} (m : Manager ρ) : Manager ρ :=
  { m with iteration := m.iteration + 1 }

/-- Embeds `Comparer._compare_targets(handle, models, batch_idx, outputs)`.
`manager` is `engine.manager` when the engine has one (`hasattr`), else
`none`; `trigger` is the Trigger Predicate `self._trigger`. -/
def compareTargets {ρ : Type} (reMatch : String → String → Bool)
    (trigger : Manager ρ → Bool) (st : CmpState) (name : String)
    (models : TDict (TDict Tensor)) (outputs : TDict Tensor)
    (manager : Option (Manager ρ)) :
    Except String (CmpState × Option (List CompareCall) × List SyncEvent) :=
  match manager with
  | some m =>
    if trigger (managerProxy m) then compareTargetsBody reMatch st name models outputs
    else .ok (st, none, [])
  | none => compareTargetsBody reMatch st name models outputs

/-- Whether a post-step capture proceeds past the trigger gate: an engine
without a progress manager always proceeds; one with a manager proceeds when
the Trigger Predicate accepts the proxied manager. -/
def triggerFires {ρ : Type} (trigger : Manager ρ → Bool)
    (manager : Option (Manager ρ)) : Bool :=
  match manager with
  | some m => trigger (managerProxy m)
  | none => true

/-- The outcome of one `run_engine` worker call. -/
structure RunResult where
  result : Except String Unit
  finalized : Bool
  events : List SyncEvent
deriving Repr

/-- Embeds `Comparer.run_engine(engine, args, kwargs)`.  `runOut` is the
outcome of the opaque `engine.run(*args, **kwargs)` call: an exception, or
normal completion together with the `_targets` dict as the run's callbacks
left it.  On normal completion `_finalized` is set and the finalization
assertion checks that no Target Set remains; any exception aborts the
barrier before re-raising; the semaphore is released on every exit path. -/
def runEngine (finalized0 : Bool)
    (runOut : Except String (List (String × TDict Tensor))) : RunResult :=
  match runOut with
  | .error e =>
    { result := .error e
      finalized := finalized0
      events := [SyncEvent.semAcquire, SyncEvent.barrierAbort, SyncEvent.semRelease] }
  | .ok tg =>
    if tg.length = 0 then
      { result := .ok ()
        finalized := true
        events := [SyncEvent.semAcquire, SyncEvent.semRelease] }
    else
      { result := .error "Engines have different triggers."
        finalized := true
        events := [SyncEvent.semAcquire, SyncEvent.barrierAbort, SyncEvent.semRelease] }

/-- Did an embedded call succeed? -/
def isOk {α : Type} (r : Except String α) : Bool :=
  match r with
  | .ok _ => true
  | .error _ => false

/-- Did an embedded call raise? -/
def isErr {α : Type} (r : Except String α) : Bool :=
  match r with
  | .ok _ => false
  | .error _ => true

/-- A concrete reference Target Set (two keys) used to exercise a
comparison round. -/
def exampleRefTS : TDict Tensor :=
  [("w", { data := 0, onCpu := false, detached := false }),
   ("x", { data := 1, onCpu := false, detached := false })]

/-- A concrete three-engine Target Set collection whose engines all carry
the keys of `exampleRefTS`. -/
def exampleTargets : List (String × TDict Tensor) :=
  [("a", exampleRefTS),
   ("b", [("w", { data := 2, onCpu := false, detached := false }),
          ("x", { data := 3, onCpu := false, detached := false })]),
   ("c", [("w", { data := 4, onCpu := false, detached := false }),
          ("x", { data := 5, onCpu := false, detached := false })])]

/-- The Target Set collection invariant: at most one Target Set per engine
name (no duplicate keys in `_targets`), and only registered engine names
appear. -/
def TargetInv (st : CmpState) : Prop :=
  (st.targets.map Prod.fst).Nodup ∧
  ∀ n ∈ st.targets.map Prod.fst, n ∈ st.engines

/-- Claim C2, counterexample: a `Comparer` constructed with a non-`None`
trigger has registered no engine at all, yet `add_engine` of an `Evaluator`
raises — so none of the claim's three conditions holds while the call still
fails, refuting the claimed "if and only if" (and the claim that the kind is
fixed only by the first successful registration). -/
theorem addEngine_claim_iff_fails :
    specRaisesOnAdd (comparerInit (some 1)) "eng0" PyType.evaluatorType = false ∧
    (comparerInit (some 1)).engines = [] ∧
    isErr (addEngine (comparerInit (some 1)) "eng0" PyType.evaluatorType) = true := by
  exact ⟨rfl, rfl, rfl⟩

/-- Claim C2, amended: `add_engine` raises exactly when the engine's runtime
type is unsupported, or the `_engine_type` field is set to a different kind,
or the name is already registered — where `_engine_type` is fixed either by
the first successful registration or already at construction when a
non-`None` trigger is passed (in which case it is `Trainer`). -/
theorem addEngine_raises_iff (st : RegComparer) (name : String) (ty : PyType) :
    (isErr (addEngine st name ty) = codeRaisesOnAdd st name ty) ∧
    (comparerInit none).engineType = none ∧
    (∀ t : Nat, (comparerInit (some t)).engineType = some PyType.trainerType) ∧
    (∀ st', addEngine st name ty = .ok st' →
      st'.engineType = some (match st.engineType with
                             | some et => et
                             | none => ty)) := by
  refine ⟨?_, rfl, fun _ => rfl, ?_⟩
  · unfold addEngine codeRaisesOnAdd isErr
    by_cases hty : ty = PyType.otherType
    · simp [hty]
    · rcases hET : st.engineType with _ | et
      · by_cases hc : name ∈ st.engines.map Prod.fst <;>
          simp [hty, hET, hc]
      · by_cases h1 : ty = et
        · subst h1
          by_cases hc : name ∈ st.engines.map Prod.fst <;>
            simp [hty, hET, hc]
        · simp [hty, hET, h1]
  · intro st' hok
    unfold addEngine at hok
    by_cases hty : ty = PyType.otherType
    · simp [hty] at hok
    · rcases hET : st.engineType with _ | et <;> rw [hET] at hok
      · by_cases hc : name ∈ st.engines.map Prod.fst
        · simp [hty, hc] at hok
        · simp only [hty, if_false, hc, if_neg, not_false_iff] at hok
          cases hok
          simp [hET]
      · by_cases h1 : ty = et
        · subst h1
          by_cases hc : name ∈ st.engines.map Prod.fst
          · simp [hty, hc] at hok
          · simp [hty, hc] at hok
            cases hok
            simp [hET]
        · simp [hty, h1] at hok

/-- Claim C2, witness for the amended theorem: on a trigger-less `Comparer`
the first successful registration of an `Evaluator` fixes the kind to
`Evaluator`. -/
theorem addEngine_raises_iff_witness :
    (RegComparer.engineType
        { engineType := some PyType.evaluatorType,
          engines := [("a", PyType.evaluatorType)] }) =
      some PyType.evaluatorType :=
  (addEngine_raises_iff (comparerInit none) "a" PyType.evaluatorType).2.2.2
    { engineType := some PyType.evaluatorType,
      engines := [("a", PyType.evaluatorType)] } rfl

/-- Claim C8 — every lifecycle method of `_ComparableHandler` passes its
arguments unchanged to the wrapped handler and returns its value; only
`train_post_step` and `eval_post_step` differ: they delegate first, then
increment the wrapper's iteration counter by one, then invoke the comparator
callback with (the wrapper, the engine's model collection, the batch index,
the outputs). -/
theorem comparable_handler_delegates {σ : HandlerSig} {Rcb : Type}
    (cb : ComparableHandler σ → σ.Models → σ.BatchIdx → σ.Out → Rcb)
    (modelsOfT : σ.Tr → σ.Models) (modelsOfE : σ.Ev → σ.Models)
    (ch : ComparableHandler σ) (tr : σ.Tr) (ev : σ.Ev) (ld : σ.Loader)
    (bi : σ.BatchIdx) (b : σ.Batch) (cf : σ.CompleteFn) (out : σ.Out) :
    ch.convert_batch b = ch.handler.convert_batch b ∧
    ch.train_setup tr ld = ch.handler.train_setup tr ld ∧
    ch.train_epoch_begin tr ld = ch.handler.train_epoch_begin tr ld ∧
    ch.train_epoch_end tr = ch.handler.train_epoch_end tr ∧
    ch.train_validation_begin ev = ch.handler.train_validation_begin ev ∧
    ch.train_validation_end tr ev = ch.handler.train_validation_end tr ev ∧
    ch.train_step tr bi b cf = ch.handler.train_step tr bi b cf ∧
    ch.eval_loop_begin ev = ch.handler.eval_loop_begin ev ∧
    ch.eval_step ev bi b cf = ch.handler.eval_step ev bi b cf ∧
    ch.eval_loop_end ev = ch.handler.eval_loop_end ev ∧
    ComparableHandler.train_post_step cb modelsOfT ch tr bi b out =
      (ch.handler.train_post_step tr bi b out,
       { ch with iteration := ch.iteration + 1 },
       cb { ch with iteration := ch.iteration + 1 } (modelsOfT tr) bi out) ∧
    ComparableHandler.eval_post_step cb modelsOfE ch ev bi b out =
      (ch.handler.eval_post_step ev bi b out,
       { ch with iteration := ch.iteration + 1 },
       cb { ch with iteration := ch.iteration + 1 } (modelsOfE ev) bi out) :=
  ⟨rfl, rfl, rfl, rfl, rfl, rfl, rfl, rfl, rfl, rfl, rfl, rfl⟩

/-- Claim C9 — the default comparison function compares the two values moved
to CPU and detached, with relative tolerance 1e-07, absolute tolerance 0 and
NaN-equality on by default, and with no custom message configured it uses a
message naming both engine names and the compared key. -/
theorem default_comparer_fields (b1 b2 key : String) (v1 v2 : Tensor) :
    (defaultComparer b1 b2 key v1 v2).val1 = v1.cpu.detach ∧
    (defaultComparer b1 b2 key v1 v2).val2 = v2.cpu.detach ∧
    (defaultComparer b1 b2 key v1 v2).rtol = 1 / 10 ^ 7 ∧
    (defaultComparer b1 b2 key v1 v2).atol = 0 ∧
    (defaultComparer b1 b2 key v1 v2).equalNan = true ∧
    (defaultComparer b1 b2 key v1 v2).msg =
      " comparing " ++ b1 ++ " and " ++ b2 ++ " in " ++ key :=
  ⟨rfl, rfl, rfl, rfl, rfl, rfl⟩

/-- The trigger gate of `_compare_targets`, factored through
`triggerFires`. -/
theorem compareTargets_eq {ρ : Type} (reMatch : String → String → Bool)
    (trigger : Manager ρ → Bool) (st : CmpState) (name : String)
    (models : TDict (TDict Tensor)) (outputs : TDict Tensor)
    (manager : Option (Manager ρ)) :
    compareTargets reMatch trigger st name models outputs manager =
      (if triggerFires trigger manager then
        compareTargetsBody reMatch st name models outputs
      else .ok (st, none, [])) := by
  cases manager with
  | none => rfl
  | some m =>
    show (if trigger (managerProxy m) then _ else _) = _
    by_cases h : trigger (managerProxy m) = true <;>
      simp [triggerFires, h]

/-- A successful `resolveParamKeys` only (possibly) updates
`_preprocessed_keys`. -/
theorem resolveParamKeys_ok_shape {reMatch : String → String → Bool}
    {st st2 : CmpState} {models : TDict (TDict Tensor)} {pk : List String}
    (h : resolveParamKeys reMatch st models = .ok (pk, st2)) :
    ∃ pre, st2 = { st with preprocessedKeys := pre } := by
  unfold resolveParamKeys at h
  split at h
  · cases h
    exact ⟨st.preprocessedKeys, rfl⟩
  · split at h
    · cases h
    · split at h
      · cases h
      · cases h
        exact ⟨some _, rfl⟩

/-- A successful `_add_target` resolves the output keys, possibly resolves
the parameter keys, and inserts one Target Set under the reporting engine's
name — nothing else changes. -/
theorem addTarget_ok_shape {reMatch : String → String → Bool}
    {st st1 : CmpState} {name : String} {models : TDict (TDict Tensor)}
    {outputs : TDict Tensor}
    (h : addTarget reMatch st name models outputs = .ok st1) :
    ∃ tg pre,
      st1 = { st with
        outputKeys := KeySel.keys (outKeysOf st.outputKeys outputs),
        preprocessedKeys := pre,
        targets := dictInsert st.targets name tg } := by
  unfold addTarget at h
  simp only [] at h
  split at h
  · cases h
  · next pk st2 hr =>
    split at h
    · cases h
    · next tg hb =>
      cases h
      rcases resolveParamKeys_ok_shape hr with ⟨pre, hst2⟩
      subst hst2
      exact ⟨tg, pre, rfl⟩

/-- Claim C3 — with a progress manager present, the Trigger Predicate sees
an iteration one ahead of the manager's; a rejected step returns at once:
the state (Target Sets, finalized flag) is unchanged, no comparison runs,
and no barrier or semaphore action happens. -/
theorem trigger_gate_no_effect {ρ : Type} (reMatch : String → String → Bool)
    (trigger : Manager ρ → Bool) (st : CmpState) (name : String)
    (models : TDict (TDict Tensor)) (outputs : TDict Tensor) (m : Manager ρ)
    (h : trigger (managerProxy m) = false) :
    (managerProxy m).iteration = m.iteration + 1 ∧
    compareTargets reMatch trigger st name models outputs (some m) =
      .ok (st, none, []) := by
  refine ⟨rfl, ?_⟩
  rw [compareTargets_eq]
  simp [triggerFires, h]

/-- Claim C3, witness: a concrete non-triggering post-step. -/
theorem trigger_gate_no_effect_witness :
    compareTargets (fun _ _ => true) (fun _ : Manager Unit => false)
      { engines := ["a"], targets := [], outputKeys := KeySel.all,
        paramKeys := KeySel.noKeys, preprocessedKeys := none, finalized := false }
      "a" [] [] (some { iteration := 0, rest := () }) =
      .ok ({ engines := ["a"], targets := [], outputKeys := KeySel.all,
             paramKeys := KeySel.noKeys, preprocessedKeys := none,
             finalized := false },
           none, []) :=
  (trigger_gate_no_effect (fun _ _ => true) (fun _ => false) _ "a" [] []
    { iteration := 0, rest := () } rfl).2

/-- Claim C10 — an engine without a progress manager never consults the
Trigger Predicate: the callback's result is the same for every predicate,
and every successful post-step stores its Target Set and performs the full
release/wait/acquire handshake. -/
theorem no_manager_skips_trigger {ρ : Type} (reMatch : String → String → Bool)
    (trigA trigB : Manager ρ → Bool) (st st1 : CmpState) (name : String)
    (models : TDict (TDict Tensor)) (outputs : TDict Tensor)
    (hAdd : addTarget reMatch st name models outputs = .ok st1)
    (hLen : st1.targets.length ≠ st1.engines.length)
    (hFin : st1.finalized = false) :
    compareTargets reMatch trigA st name models outputs none =
      compareTargets reMatch trigB st name models outputs none ∧
    compareTargets reMatch trigA st name models outputs none =
      .ok (st1, none, syncHandshake) := by
  constructor
  · rfl
  · show compareTargetsBody reMatch st name models outputs = _
    unfold compareTargetsBody
    rw [hAdd]
    simp [hLen, hFin]

/-- Claim C10, witness: a concrete manager-less post-step that captures and
synchronizes. -/
theorem no_manager_skips_trigger_witness :
    compareTargets (fun _ _ => true) (fun _ : Manager Unit => false)
      { engines := ["a", "b"], targets := [], outputKeys := KeySel.keys ["loss"],
        paramKeys := KeySel.noKeys, preprocessedKeys := some [], finalized := false }
      "a" [] [("loss", { data := 1, onCpu := false, detached := false })] none =
      .ok ({ engines := ["a", "b"],
             targets := [("a", [("loss", { data := 1, onCpu := false, detached := false })])],
             outputKeys := KeySel.keys ["loss"], paramKeys := KeySel.noKeys,
             preprocessedKeys := some [], finalized := false },
           none, syncHandshake) :=
  (no_manager_skips_trigger (fun _ _ => true) (fun _ => false) (fun _ => true)
    { engines := ["a", "b"], targets := [], outputKeys := KeySel.keys ["loss"],
      paramKeys := KeySel.noKeys, preprocessedKeys := some [], finalized := false }
    { engines := ["a", "b"],
      targets := [("a", [("loss", { data := 1, onCpu := false, detached := false })])],
      outputKeys := KeySel.keys ["loss"], paramKeys := KeySel.noKeys,
      preprocessedKeys := some [], finalized := false }
    "a" [] [("loss", { data := 1, onCpu := false, detached := false })]
    rfl (by decide) rfl).2

/-- Claim C7 — `run_engine` aborts the shared barrier whenever the run or
the finalization assertion raises, and the semaphore release is the last
action on every exit path. -/
theorem run_engine_sync_discipline (finalized0 : Bool)
    (runOut : Except String (List (String × TDict Tensor))) :
    (runEngine finalized0 runOut).events.getLast? = some SyncEvent.semRelease ∧
    (isErr (runEngine finalized0 runOut).result = true →
      SyncEvent.barrierAbort ∈ (runEngine finalized0 runOut).events) := by
  unfold runEngine
  cases runOut with
  | error e => exact ⟨rfl, fun _ => by simp⟩
  | ok tg =>
    by_cases h : tg.length = 0
    · refine ⟨?_, ?_⟩ <;> simp [h, isErr]
    · refine ⟨?_, ?_⟩ <;> simp [h, isErr]

/-- Claim C7, witness: a failing run aborts the barrier. -/
theorem run_engine_sync_discipline_witness :
    SyncEvent.barrierAbort ∈ (runEngine false (.error "boom")).events :=
  (run_engine_sync_discipline false (.error "boom")).2 rfl

/-- `_add_target` never changes the `_finalized` flag. -/
theorem addTarget_finalized {reMatch : String → String → Bool}
    {st st1 : CmpState} {name : String} {models : TDict (TDict Tensor)}
    {outputs : TDict Tensor}
    (h : addTarget reMatch st name models outputs = .ok st1) :
    st1.finalized = st.finalized := by
  rcases addTarget_ok_shape h with ⟨tg, pre, hs⟩
  rw [hs]

/-- Claim C5 — a completed run sets the finalized flag and raises the
trigger-mismatch error on any residual Target Set, and a triggered capture
reaching the report section after finalization raises the same error. -/
theorem finalized_assertions {ρ : Type} (reMatch : String → String → Bool)
    (trigger : Manager ρ → Bool) (st st1 : CmpState) (name : String)
    (models : TDict (TDict Tensor)) (outputs : TDict Tensor)
    (mgr : Option (Manager ρ)) (finalized0 : Bool)
    (tg : List (String × TDict Tensor)) :
    (tg ≠ [] →
      (runEngine finalized0 (.ok tg)).finalized = true ∧
      (runEngine finalized0 (.ok tg)).result =
        .error "Engines have different triggers.") ∧
    (st.finalized = true →
      triggerFires trigger mgr = true →
      addTarget reMatch st name models outputs = .ok st1 →
      (st1.targets.length = st1.engines.length →
        isOk (compareOuts st1.engines st1.targets) = true) →
      compareTargets reMatch trigger st name models outputs mgr =
        .error "Engines have different triggers.") := by
  constructor
  · intro htg
    have hlen : tg.length ≠ 0 := by
      intro h0
      exact htg (List.length_eq_zero.mp h0)
    unfold runEngine
    simp [hlen]
  · intro hFin hTrig hAdd hCmp
    have hF1 : st1.finalized = true := by
      rw [addTarget_finalized hAdd, hFin]
    have hbody : compareTargetsBody reMatch st name models outputs =
        .error "Engines have different triggers." := by
      unfold compareTargetsBody
      rw [hAdd]
      by_cases hlen : st1.targets.length = st1.engines.length
      · rcases hco : compareOuts st1.engines st1.targets with e | cs
        · have hok := hCmp hlen
          rw [hco] at hok
          cases hok
        · simp [hlen, hco, hF1]
      · simp [hlen, hF1]
    rw [compareTargets_eq, hTrig]
    simpa using hbody

/-- Claim C5, witness: a run finishing with a leftover Target Set raises,
and a finalized Comparer raises on the next triggered capture. -/
theorem finalized_assertions_witness :
    (runEngine false
        (.ok [("a", [("loss", { data := 1, onCpu := false, detached := false })])])).result =
      .error "Engines have different triggers." ∧
    compareTargets (fun _ _ => true) (fun _ : Manager Unit => true)
      { engines := ["a", "b"], targets := [], outputKeys := KeySel.keys ["loss"],
        paramKeys := KeySel.noKeys, preprocessedKeys := some [], finalized := true }
      "a" [] [("loss", { data := 1, onCpu := false, detached := false })] none =
      .error "Engines have different triggers." := by
  constructor
  · exact ((finalized_assertions (fun _ _ => true) (fun _ : Manager Unit => true)
      { engines := ["a", "b"], targets := [], outputKeys := KeySel.keys ["loss"],
        paramKeys := KeySel.noKeys, preprocessedKeys := some [], finalized := true }
      { engines := ["a", "b"],
        targets := [("a", [("loss", { data := 1, onCpu := false, detached := false })])],
        outputKeys := KeySel.keys ["loss"], paramKeys := KeySel.noKeys,
        preprocessedKeys := some [], finalized := true }
      "a" [] [("loss", { data := 1, onCpu := false, detached := false })] none false
      [("a", [("loss", { data := 1, onCpu := false, detached := false })])]).1
      (by simp)).2
  · exact (finalized_assertions (fun _ _ => true) (fun _ : Manager Unit => true)
      { engines := ["a", "b"], targets := [], outputKeys := KeySel.keys ["loss"],
        paramKeys := KeySel.noKeys, preprocessedKeys := some [], finalized := true }
      { engines := ["a", "b"],
        targets := [("a", [("loss", { data := 1, onCpu := false, detached := false })])],
        outputKeys := KeySel.keys ["loss"], paramKeys := KeySel.noKeys,
        preprocessedKeys := some [], finalized := true }
      "a" [] [("loss", { data := 1, onCpu := false, detached := false })] none false
      [("a", [("loss", { data := 1, onCpu := false, detached := false })])]).2
      rfl rfl rfl (fun hl => absurd hl (by decide))

/-- The keys of a dict after insertion: unchanged when the key was present,
extended by the key at the end otherwise. -/
theorem dictInsert_keys {α : Type} (d : List (String × α)) (k : String) (v : α) :
    (dictInsert d k v).map Prod.fst =
      if k ∈ d.map Prod.fst then d.map Prod.fst else d.map Prod.fst ++ [k] := by
  induction d with
  | nil => simp [dictInsert]
  | cons p rest ih =>
    obtain ⟨k', v'⟩ := p
    by_cases h : k' = k
    · subst h
      simp [dictInsert]
    · by_cases h2 : k ∈ rest.map Prod.fst <;>
        simp [dictInsert, h, ih, h2, Ne.symm h]

/-- Insertion preserves distinctness of dict keys. -/
theorem dictInsert_nodup {α : Type} (d : List (String × α)) (k : String) (v : α)
    (h : (d.map Prod.fst).Nodup) : ((dictInsert d k v).map Prod.fst).Nodup := by
  rw [dictInsert_keys]
  by_cases h2 : k ∈ d.map Prod.fst
  · simpa [h2] using h
  · simp [h2, List.nodup_append, h]

/-- Every key after insertion was present before or is the inserted key. -/
theorem dictInsert_keys_subset {α : Type} (d : List (String × α)) (k : String)
    (v : α) : ∀ x ∈ (dictInsert d k v).map Prod.fst, x ∈ d.map Prod.fst ∨ x = k := by
  rw [dictInsert_keys]
  by_cases h2 : k ∈ d.map Prod.fst
  · intro x hx
    rw [if_pos h2] at hx
    exact Or.inl hx
  · intro x hx
    rw [if_neg h2] at hx
    simpa using hx

/-- Claim C4 — the Target Set collection keeps at most one Target Set per
engine name and only registered names, its size never exceeds the number of
registered engines, a comparison round runs exactly when the size reaches
that number, and the collection is cleared immediately afterwards. -/
theorem target_set_invariants {ρ : Type} (reMatch : String → String → Bool)
    (trigger : Manager ρ → Bool) (st st1 st' : CmpState) (name : String)
    (models : TDict (TDict Tensor)) (outputs : TDict Tensor)
    (mgr : Option (Manager ρ)) (calls : Option (List CompareCall))
    (evs : List SyncEvent)
    (hInv : TargetInv st) (hName : name ∈ st.engines)
    (hAdd : addTarget reMatch st name models outputs = .ok st1)
    (hTrig : triggerFires trigger mgr = true)
    (hRun : compareTargets reMatch trigger st name models outputs mgr =
      .ok (st', calls, evs)) :
    TargetInv st1 ∧
    st1.targets.length ≤ st1.engines.length ∧
    (calls.isSome = true ↔ st1.targets.length = st1.engines.length) ∧
    (st1.targets.length = st1.engines.length → st'.targets = []) ∧
    (st1.targets.length ≠ st1.engines.length → st'.targets = st1.targets) ∧
    TargetInv st' := by
  rcases addTarget_ok_shape hAdd with ⟨tg, pre, hs⟩
  have hInv1 : TargetInv st1 := by
    subst hs
    refine ⟨dictInsert_nodup st.targets name tg hInv.1, ?_⟩
    intro n hn
    rcases dictInsert_keys_subset st.targets name tg n hn with h | h
    · exact hInv.2 n h
    · rw [h]
      exact hName
  have hlen : st1.targets.length ≤ st1.engines.length := by
    have hsub : st1.targets.map Prod.fst ⊆ st1.engines :=
      fun x hx => hInv1.2 x hx
    have := (List.subperm_of_subset hInv1.1 hsub).length_le
    simpa using this
  rw [compareTargets_eq, hTrig, if_pos rfl] at hRun
  unfold compareTargetsBody at hRun
  rw [hAdd] at hRun
  simp only [] at hRun
  by_cases heq : st1.targets.length = st1.engines.length
  · rw [if_pos heq] at hRun
    rcases hco : compareOuts st1.engines st1.targets with e | cs <;>
      rw [hco] at hRun
    · cases hRun
    · simp only [] at hRun
      by_cases hfin : st1.finalized = true
      · rw [if_pos hfin] at hRun
        cases hRun
      · rw [if_neg hfin] at hRun
        cases hRun
        refine ⟨hInv1, hlen, by simp [heq], fun _ => rfl,
          fun hne => absurd heq hne, ?_⟩
        exact ⟨by simp, by simp⟩
  · rw [if_neg heq] at hRun
    by_cases hfin : st1.finalized = true
    · rw [if_pos hfin] at hRun
      cases hRun
    · rw [if_neg hfin] at hRun
      cases hRun
      exact ⟨hInv1, hlen, by simp [heq], fun h => absurd h heq,
        fun _ => rfl, hInv1⟩

/-- Claim C4, witness: a second engine's report completes a round — the
comparison runs and the collection is cleared. -/
theorem target_set_invariants_witness :
    Option.isSome (some
      [({ backend1 := "a", backend2 := "b", key := "loss",
          val1 := { data := 1, onCpu := false, detached := false },
          val2 := { data := 2, onCpu := false, detached := false } } : CompareCall)]) =
      true ↔ (1 + 1 : Nat) = 2 := by
  have h := target_set_invariants (ρ := Unit) (fun _ _ => true) (fun _ => true)
    { engines := ["a", "b"],
      targets := [("a", [("loss", { data := 1, onCpu := false, detached := false })])],
      outputKeys := KeySel.keys ["loss"], paramKeys := KeySel.noKeys,
      preprocessedKeys := some [], finalized := false }
    { engines := ["a", "b"],
      targets := [("a", [("loss", { data := 1, onCpu := false, detached := false })]),
                  ("b", [("loss", { data := 2, onCpu := false, detached := false })])],
      outputKeys := KeySel.keys ["loss"], paramKeys := KeySel.noKeys,
      preprocessedKeys := some [], finalized := false }
    { engines := ["a", "b"], targets := [],
      outputKeys := KeySel.keys ["loss"], paramKeys := KeySel.noKeys,
      preprocessedKeys := some [], finalized := false }
    "b" [] [("loss", { data := 2, onCpu := false, detached := false })] none
    (some
      [{ backend1 := "a", backend2 := "b", key := "loss",
         val1 := { data := 1, onCpu := false, detached := false },
         val2 := { data := 2, onCpu := false, detached := false } }])
    syncHandshake
    (⟨by decide, by
      intro n hn
      simp only [List.map_cons, List.map_nil, List.mem_cons,
        List.mem_singleton] at hn
      rcases hn with hn | hn
      · simp [hn]
      · cases hn⟩)
    (by simp) rfl rfl rfl
  exact h.2.2.1

/-- A key listed among a dict's keys can be looked up. -/
theorem dlookup_isSome_of_mem {α : Type} {d : List (String × α)} {k : String}
    (h : k ∈ d.map Prod.fst) : ∃ v, dlookup d k = some v := by
  induction d with
  | nil => cases h
  | cons p rest ih =>
    obtain ⟨k', v'⟩ := p
    by_cases hk : k' = k
    · exact ⟨v', by simp [dlookup, hk]⟩
    · have hmem : k ∈ rest.map Prod.fst := by
        rcases List.mem_cons.mp h with h1 | h1
        · exact absurd h1.symm hk
        · exact h1
      rcases ih hmem with ⟨v, hv⟩
      exact ⟨v, by simp [dlookup, hk, hv]⟩

/-- The inner loop of `_compare_outs` succeeds and emits one call per
reference key when the other engine's Target Set covers those keys. -/
theorem innerCalls_spec (targets : List (String × TDict Tensor)) (b1 b2 : String)
    (ts1 ts2 : TDict Tensor) (l : List (String × Tensor))
    (hb2 : dlookup targets b2 = some ts2)
    (hl : ∀ k ∈ l.map Prod.fst, k ∈ ts1.map Prod.fst)
    (hcov : ∀ k ∈ l.map Prod.fst, k ∈ ts2.map Prod.fst) :
    ∃ cs, innerCalls targets b1 b2 ts1 l = .ok cs ∧
      cs.length = l.length ∧
      ∀ c ∈ cs, c.backend1 = b1 ∧ c.backend2 = b2 ∧ c.key ∈ l.map Prod.fst ∧
        dlookup ts1 c.key = some c.val1 ∧ dlookup ts2 c.key = some c.val2 := by
  induction l with
  | nil => exact ⟨[], rfl, rfl, by intro c hc; cases hc⟩
  | cons p rest ih =>
    obtain ⟨k, v⟩ := p
    have hk1 : k ∈ ts1.map Prod.fst := hl k (by simp)
    have hk2 : k ∈ ts2.map Prod.fst := hcov k (by simp)
    rcases dlookup_isSome_of_mem hk1 with ⟨v1, hv1⟩
    rcases dlookup_isSome_of_mem hk2 with ⟨v2, hv2⟩
    rcases ih (fun k hk => hl k (by simp [hk])) (fun k hk => hcov k (by simp [hk]))
      with ⟨cs, hcs, hlen, hprops⟩
    refine ⟨{ backend1 := b1, backend2 := b2, key := k,
              val1 := v1, val2 := v2 } :: cs, ?_, ?_, ?_⟩
    · unfold innerCalls
      simp only [hv1, hb2, hv2, hcs]
    · simp [hlen]
    · intro c hc
      rcases List.mem_cons.mp hc with rfl | hc
      · exact ⟨rfl, rfl, by simp, hv1, hv2⟩
      · rcases hprops c hc with ⟨h1, h2, h3, h4, h5⟩
        exact ⟨h1, h2, by simp [h3], h4, h5⟩

/-- The outer loop of `_compare_outs` succeeds and emits
(number of other engines) × (number of reference keys) calls when every
other engine's Target Set covers the reference keys. -/
theorem outerCalls_spec (targets : List (String × TDict Tensor)) (b1 : String)
    (ts1 : TDict Tensor) (rest : List String)
    (hb1 : dlookup targets b1 = some ts1)
    (hall : ∀ b ∈ rest, ∃ ts, dlookup targets b = some ts ∧
      ∀ k ∈ ts1.map Prod.fst, k ∈ ts.map Prod.fst) :
    ∃ cs, outerCalls targets b1 rest = .ok cs ∧
      cs.length = rest.length * ts1.length ∧
      ∀ c ∈ cs, c.backend1 = b1 ∧ c.backend2 ∈ rest ∧
        c.key ∈ ts1.map Prod.fst ∧ dlookup ts1 c.key = some c.val1 ∧
        ∃ ts2, dlookup targets c.backend2 = some ts2 ∧
          dlookup ts2 c.key = some c.val2 := by
  induction rest with
  | nil => exact ⟨[], rfl, by simp, by intro c hc; cases hc⟩
  | cons b2 more ih =>
    rcases hall b2 (by simp) with ⟨ts2, hts2, hcov⟩
    rcases innerCalls_spec targets b1 b2 ts1 ts2 ts1 hts2 (fun k hk => hk) hcov
      with ⟨cs1, hcs1, hlen1, hp1⟩
    rcases ih (fun b hb => hall b (by simp [hb])) with ⟨cs2, hcs2, hlen2, hp2⟩
    refine ⟨cs1 ++ cs2, ?_, ?_, ?_⟩
    · unfold outerCalls
      simp only [hb1, hcs1, hcs2]
    · rw [List.length_append, hlen1, hlen2, List.length_cons, Nat.succ_mul,
        Nat.add_comm]
    · intro c hc
      rcases List.mem_append.mp hc with hc | hc
      · rcases hp1 c hc with ⟨h1, h2, h3, h4, h5⟩
        refine ⟨h1, by simp [h2], h3, h4, ts2, ?_, h5⟩
        rw [h2]
        exact hts2
      · rcases hp2 c hc with ⟨h1, h2, h3, h4, h5⟩
        exact ⟨h1, by simp [h2], h3, h4, h5⟩

/-- Claim C1 — once every registered engine has a Target Set covering the
reference's keys, `_compare_outs` invokes the Comparison Function exactly
(N−1) × (number of reference keys) times, and every invocation carries the
first-registered (reference) engine's name, another engine's name, a
reference key, and the two engines' values at that key. -/
theorem compare_round_call_count (targets : List (String × TDict Tensor))
    (b1 : String) (rest : List String) (ts1 : TDict Tensor)
    (hb1 : dlookup targets b1 = some ts1)
    (hall : ∀ b ∈ rest, ∃ ts, dlookup targets b = some ts ∧
      ∀ k ∈ ts1.map Prod.fst, k ∈ ts.map Prod.fst) :
    ∃ cs, compareOuts (b1 :: rest) targets = .ok cs ∧
      cs.length = ((b1 :: rest).length - 1) * ts1.length ∧
      ∀ c ∈ cs, c.backend1 = b1 ∧ c.backend2 ∈ rest ∧
        c.key ∈ ts1.map Prod.fst ∧ dlookup ts1 c.key = some c.val1 ∧
        ∃ ts2, dlookup targets c.backend2 = some ts2 ∧
          dlookup ts2 c.key = some c.val2 := by
  rcases outerCalls_spec targets b1 ts1 rest hb1 hall with ⟨cs, h1, h2, h3⟩
  exact ⟨cs, h1, by simpa using h2, h3⟩

/-- Claim C1, witness: three engines with two reference keys yield
(3−1) × 2 comparison calls of the stated shape. -/
theorem compare_round_call_count_witness :
    ∃ cs, compareOuts ("a" :: ["b", "c"]) exampleTargets = .ok cs ∧
      cs.length = (("a" :: ["b", "c"]).length - 1) * exampleRefTS.length ∧
      ∀ c ∈ cs, c.backend1 = "a" ∧ c.backend2 ∈ ["b", "c"] ∧
        c.key ∈ exampleRefTS.map Prod.fst ∧
        dlookup exampleRefTS c.key = some c.val1 ∧
        ∃ ts2, dlookup exampleTargets c.backend2 = some ts2 ∧
          dlookup ts2 c.key = some c.val2 :=
  compare_round_call_count exampleTargets "a" ["b", "c"] exampleRefTS rfl
    (by
      intro b hb
      rcases List.mem_cons.mp hb with rfl | hb
      · exact ⟨_, rfl, by decide⟩
      · rcases List.mem_singleton.mp hb with rfl
        exact ⟨_, rfl, by decide⟩)

/-- The pattern loop of `_preprocess_keys` raises whenever some configured
pattern matches no state-dict key. -/
theorem patLoop_err_of_unmatched (reMatch : String → String → Bool)
    (sdKeys : List String) (pats : List String)
    (hbad : ∃ p ∈ pats, ∀ k ∈ sdKeys, reMatch p k = false) :
    isErr (patLoop reMatch sdKeys pats) = true := by
  induction pats with
  | nil =>
    rcases hbad with ⟨p, hp, _⟩
    cases hp
  | cons q qs ih =>
    rcases hbad with ⟨p, hp, hnom⟩
    unfold patLoop
    by_cases hq : (patMatches reMatch q sdKeys).isEmpty = true
    · simp [hq, isErr]
    · rcases List.mem_cons.mp hp with rfl | hp2
      · exfalso
        apply hq
        have hnil : patMatches reMatch p sdKeys = [] := by
          unfold patMatches
          rw [List.filter_eq_nil_iff]
          intro k hk
          simp [hnom k hk]
        simp [hnil]
      · have hrec := ih ⟨p, hp2, hnom⟩
        simp only [Bool.not_eq_true] at hq
        simp only [hq, Bool.false_eq_true, if_false]
        rcases hr : patLoop reMatch sdKeys qs with e | rest
        · simp [isErr]
        · rw [hr] at hrec
          simp [isErr] at hrec

/-- Claim C6, counterexample: with a parameter pattern ("xyz") matching no
key of the model's state dict (single key "w"), both registrations succeed
without any error — nothing is checked before the engines run — and the
configuration error surfaces only inside the first triggered post-step
capture, i.e. while the reporting engine is already running.  (`re.match`
is instantiated with prefix matching, which is exact for this literal
pattern.) -/
theorem param_pattern_unchecked_before_run :
    isOk (addEngine (comparerInit none) "a" PyType.trainerType) = true ∧
    isOk (addEngine { engineType := some PyType.trainerType,
                      engines := [("a", PyType.trainerType)] }
      "b" PyType.trainerType) = true ∧
    compareTargets (fun p s => p.isPrefixOf s) (fun _ : Manager Unit => true)
      { engines := ["a", "b"], targets := [], outputKeys := KeySel.all,
        paramKeys := KeySel.keys ["xyz"], preprocessedKeys := none,
        finalized := false }
      "a" [("main", [("w", { data := 0, onCpu := false, detached := false })])]
      [] none =
      .error "didnt find a match for xyz in the model" :=
  ⟨rfl, rfl, rfl⟩

/-- Claim C6, amended: a parameter-key pattern that matches no key of the
model's state dict raises the configuration error lazily, at the first
triggered capture of the first engine to report (hence during that engine's
run), not before the engines run. -/
theorem param_pattern_fails_at_first_capture {ρ : Type}
    (reMatch : String → String → Bool) (trigger : Manager ρ → Bool)
    (st : CmpState) (name : String) (models : TDict (TDict Tensor))
    (outputs : TDict Tensor) (mgr : Option (Manager ρ))
    (sdict : TDict Tensor) (pats : List String)
    (hpre : st.preprocessedKeys = none)
    (hpk : st.paramKeys = KeySel.keys pats)
    (hmain : dlookup models "main" = some sdict)
    (hbad : ∃ p ∈ pats, ∀ k ∈ sdict.map Prod.fst, reMatch p k = false)
    (hTrig : triggerFires trigger mgr = true) :
    isErr (compareTargets reMatch trigger st name models outputs mgr) = true := by
  have hloop : isErr (patLoop reMatch (sdict.map Prod.fst) pats) = true :=
    patLoop_err_of_unmatched reMatch (sdict.map Prod.fst) pats hbad
  have hres : isErr (resolveParamKeys reMatch
      { st with outputKeys := KeySel.keys (outKeysOf st.outputKeys outputs) }
      models) = true := by
    unfold resolveParamKeys
    simp only [hpre, hmain]
    unfold preprocessKeys
    simp only [hpk]
    rcases hr : patLoop reMatch (sdict.map Prod.fst) pats with e | rest
    · simp [isErr]
    · rw [hr] at hloop
      simp [isErr] at hloop
  rw [compareTargets_eq, hTrig, if_pos rfl]
  unfold compareTargetsBody
  unfold addTarget
  simp only []
  rcases hr : resolveParamKeys reMatch
      { st with outputKeys := KeySel.keys (outKeysOf st.outputKeys outputs) }
      models with e | pr
  · simp [isErr]
  · rw [hr] at hres
    simp [isErr] at hres

/-- Claim C6, witness for the amended theorem: the concrete unmatched
pattern "xyz" raises at the first triggered capture. -/
theorem param_pattern_fails_at_first_capture_witness :
    isErr (compareTargets (fun p s => p.isPrefixOf s)
      (fun _ : Manager Unit => true)
      { engines := ["a", "b"], targets := [], outputKeys := KeySel.all,
        paramKeys := KeySel.keys ["xyz"], preprocessedKeys := none,
        finalized := false }
      "a" [("main", [("w", { data := 0, onCpu := false, detached := false })])]
      [] none) = true :=
  param_pattern_fails_at_first_capture (fun p s => p.isPrefixOf s)
    (fun _ => true)
    { engines := ["a", "b"], targets := [], outputKeys := KeySel.all,
      paramKeys := KeySel.keys ["xyz"], preprocessedKeys := none,
      finalized := false }
    "a" [("main", [("w", { data := 0, onCpu := false, detached := false })])]
    [] none [("w", { data := 0, onCpu := false, detached := false })] ["xyz"]
    rfl rfl rfl (by decide) rfl

end Comparer
